import Mathlib

/-!
Verification development for the ClipToEpub content-processing pipeline
(`src/cliptoepub/content_processor.py` and the ePub assembly logic in
`src/converter.py`).

The Python code is shallowly embedded:

* Python strings are Lean `String`s (operated on as `List Char` where
  convenient); whitespace predicates model Python's ASCII whitespace.
* A BeautifulSoup parse tree is the inductive `Node`; a parsed document
  (the soup object) is the forest of its top-level nodes, `List Node`.
  `parseHTML` is an executable model of `html.parser`-backed parsing:
  tags with attributes, void elements, text, lenient recovery for stray
  end tags, no entity decoding (none of the verified inputs use entities).
* `str(node)` is `Node.render`; `soup.get_text()` is `getTextF`;
  `find_all` / `find` are pre-order searches; `find_next_sibling()`
  (which skips text nodes) is modelled by pairing each found tag with
  its list of following siblings (`collectWithSibs`).
* Chapters (`{"title": ..., "content": ...}` dicts) are the structure
  `Chapter`; the `"\n".join(...)` serialisation of chapter content
  followed by reparsing is modelled by interleaving `"\n"` text nodes
  (`joinNodes`).
-/

set_option maxRecDepth 16384

namespace ClipToEpub

/-! ### Python string primitives -/

/-- Python whitespace (`str.strip` / `str.split`), ASCII fragment. -/
def isPyWS (c : Char) : Bool :=
  c = ' ' || c = '\t' || c = '\n' || c = '\r' || c = '\x0b' || c = '\x0c'

/-- Model of Python `str.strip()` on the character list. -/
def pyStripL (l : List Char) : List Char :=
  ((l.dropWhile isPyWS).reverse.dropWhile isPyWS).reverse

/-- Model of Python `str.strip()`. -/
def pyStrip (s : String) : String :=
  (pyStripL s.toList).asString

/-- Helper for `pySplitWS`: accumulate the current word (reversed) while
splitting a character list on whitespace runs. -/
def pySplitAux : List Char → List Char → List (List Char)
  | [], acc => if acc.isEmpty then [] else [acc.reverse]
  | c :: rest, acc =>
    if isPyWS c then
      if acc.isEmpty then pySplitAux rest [] else acc.reverse :: pySplitAux rest []
    else pySplitAux rest (c :: acc)

/-- Model of Python `str.split()` (split on whitespace, dropping empties). -/
def pySplitWS (s : String) : List String :=
  (pySplitAux s.toList []).map List.asString

/-- Remove NUL bytes (`content.replace("\x00", "")`). -/
def stripNul (s : String) : String :=
  (s.toList.filter (fun c => c ≠ '\x00')).asString

/-- Model of Python `str.lower()` (ASCII fragment), implemented over the
character list so that it evaluates by kernel reduction. -/
def strLower (s : String) : String :=
  (s.toList.map Char.toLower).asString

/-- Model of Python `str.startswith(pre)`. -/
def pyStartsWith (s pre : String) : Bool :=
  pre.toList.isPrefixOf s.toList

/-- Whether `p` occurs as a contiguous sublist of `l`. -/
def subList (p l : List Char) : Bool :=
  p.isPrefixOf l ||
    match l with
    | [] => false
    | _ :: t => subList p t

/-- Case-sensitive substring test. -/
def strContains (pat s : String) : Bool :=
  subList pat.toList s.toList

/-- Case-insensitive substring test (both sides lower-cased). -/
def strContainsCI (pat s : String) : Bool :=
  subList (strLower pat).toList (strLower s).toList

/-- Model of Python `html.escape` (quote=True). -/
def htmlEscape (s : String) : String :=
  String.join (s.toList.map fun c =>
    if c = '&' then "&amp;"
    else if c = '<' then "&lt;"
    else if c = '>' then "&gt;"
    else if c = '"' then "&quot;"
    else if c.toNat = 39 then "&#x27;"
    else String.singleton c)

/-! ### The BeautifulSoup tree model -/

/-- A node of the parse tree: an element with tag name, attributes and
children, or a text node.  BeautifulSoup `Tag.__eq__` is structural
(name, attributes, contents), matching derived decidable equality. -/
inductive Node where
  | tag (name : String) (attrs : List (String × String)) (children : List Node)
  | text (s : String)
deriving Repr

mutual

/-- Boolean structural equality on nodes. -/
def Node.beq : Node → Node → Bool
  | .text s, .text t => decide (s = t)
  | .tag n a c, .tag n' a' c' => decide (n = n') && decide (a = a') && Node.beqList c c'
  | _, _ => false

/-- Boolean structural equality on forests. -/
def Node.beqList : List Node → List Node → Bool
  | [], [] => true
  | x :: xs, y :: ys => Node.beq x y && Node.beqList xs ys
  | _, _ => false

end

mutual

theorem Node.beq_iff : ∀ a b : Node, Node.beq a b = true ↔ a = b
  | .text s, .text t => by simp [Node.beq]
  | .text _, .tag _ _ _ => by simp [Node.beq]
  | .tag _ _ _, .text _ => by simp [Node.beq]
  | .tag n a c, .tag n' a' c' => by
    simp [Node.beq, Node.beqList_iff c c', Node.tag.injEq, and_assoc]

theorem Node.beqList_iff : ∀ l m : List Node, Node.beqList l m = true ↔ l = m
  | [], [] => by simp [Node.beqList]
  | [], _ :: _ => by simp [Node.beqList]
  | _ :: _, [] => by simp [Node.beqList]
  | x :: xs, y :: ys => by
    simp [Node.beqList, Node.beq_iff x y, Node.beqList_iff xs ys]

end

instance : DecidableEq Node := fun a b =>
  decidable_of_iff _ (Node.beq_iff a b)

/-- HTML void elements (no closing tag, no children). -/
def voidElems : List String :=
  ["area", "base", "br", "col", "embed", "hr", "img", "input",
   "link", "meta", "param", "source", "track", "wbr"]

/-- Escape of text content in rendered output (bs4 minimal formatter). -/
def renderTextEscape (s : String) : String :=
  String.join (s.toList.map fun c =>
    if c = '&' then "&amp;"
    else if c = '<' then "&lt;"
    else if c = '>' then "&gt;"
    else String.singleton c)

/-- Escape of attribute values in rendered output. -/
def renderAttrEscape (s : String) : String :=
  String.join (s.toList.map fun c =>
    if c = '&' then "&amp;"
    else if c = '"' then "&quot;"
    else String.singleton c)

/-- Rendering of an attribute list, as bs4 does: ` name="value"` each. -/
def renderAttrs : List (String × String) → String
  | [] => ""
  | (k, v) :: rest => " " ++ k ++ "=\"" ++ renderAttrEscape v ++ "\"" ++ renderAttrs rest

mutual

/-- Model of `str(node)` (bs4 decode). -/
def Node.render : Node → String
  | .text s => renderTextEscape s
  | .tag name attrs children =>
    if voidElems.contains name && children.isEmpty then
      "<" ++ name ++ renderAttrs attrs ++ "/>"
    else
      "<" ++ name ++ renderAttrs attrs ++ ">" ++ renderForest children ++ "</" ++ name ++ ">"

/-- Concatenated rendering of a forest (`str(soup)`, `decode_contents`). -/
def renderForest : List Node → String
  | [] => ""
  | n :: rest => Node.render n ++ renderForest rest

end

mutual

/-- Model of `node.get_text()`: concatenation of all text descendants. -/
def Node.getText : Node → String
  | .text s => s
  | .tag _ _ children => getTextF children

/-- `get_text()` over a forest (the soup object). -/
def getTextF : List Node → String
  | [] => ""
  | n :: rest => Node.getText n ++ getTextF rest

end

/-! ### Parsing (model of `BeautifulSoup(content, "html.parser")`)

The tokenizer produces open/close/text tokens; the builder assembles the
forest with a lenient recovery for stray end tags (they are dropped,
closing the innermost open element) and auto-closing void elements.
`<!...>` declarations and comments are skipped.  Tag and attribute names
are lower-cased as `html.parser` does. -/

/-- A lexical token of the HTML input. -/
inductive HTok where
  | text (s : String)
  | openTag (name : String) (attrs : List (String × String)) (selfClose : Bool)
  | closeTag (name : String)
deriving Repr, DecidableEq

/-- Characters that terminate an unquoted attribute token. -/
def isAttrEnd (c : Char) : Bool :=
  isPyWS c || c = '>' || c = '/' || c = '='

/-- Parse an attribute list up to `>` or `/>`.  Returns the attributes,
whether the tag was self-closing, and the remaining input. -/
def parseAttrs : Nat → List Char → List (String × String) × Bool × List Char
  | 0, l => ([], false, l)
  | _ + 1, [] => ([], false, [])
  | fuel + 1, c :: rest =>
    if isPyWS c then parseAttrs fuel rest
    else if c = '>' then ([], false, rest)
    else if c = '/' then
      match rest with
      | '>' :: rest2 => ([], true, rest2)
      | _ => parseAttrs fuel rest
    else
      let name := strLower (c :: rest.takeWhile (fun d => ¬ isAttrEnd d)).asString
      let rest1 := rest.dropWhile (fun d => ¬ isAttrEnd d)
      match rest1 with
      | '=' :: '"' :: rest2 =>
        let v := rest2.takeWhile (fun d => d ≠ '"')
        let rest3 := (rest2.dropWhile (fun d => d ≠ '"')).drop 1
        let (as, sc, r) := parseAttrs fuel rest3
        ((name, v.asString) :: as, sc, r)
      | '=' :: '\'' :: rest2 =>
        let v := rest2.takeWhile (fun d => d ≠ '\'')
        let rest3 := (rest2.dropWhile (fun d => d ≠ '\'')).drop 1
        let (as, sc, r) := parseAttrs fuel rest3
        ((name, v.asString) :: as, sc, r)
      | '=' :: rest2 =>
        let v := rest2.takeWhile (fun d => ¬ (isPyWS d || d = '>'))
        let rest3 := rest2.dropWhile (fun d => ¬ (isPyWS d || d = '>'))
        let (as, sc, r) := parseAttrs fuel rest3
        ((name, v.asString) :: as, sc, r)
      | _ =>
        let (as, sc, r) := parseAttrs fuel rest1
        ((name, "") :: as, sc, r)

/-- Elements whose raw content runs to the matching close tag
(`html.parser` CDATA-mode elements). -/
def rawTextElems : List String := ["script", "style"]

/-- Tokenize HTML input. -/
def tokenize : Nat → List Char → List HTok
  | 0, _ => []
  | _ + 1, [] => []
  | fuel + 1, '<' :: rest =>
    match rest with
    | '/' :: rest1 =>
      let name := strLower (rest1.takeWhile (fun d => d ≠ '>')).asString
      let rest2 := (rest1.dropWhile (fun d => d ≠ '>')).drop 1
      HTok.closeTag (pyStrip name) :: tokenize fuel rest2
    | '!' :: rest1 =>
      tokenize fuel ((rest1.dropWhile (fun d => d ≠ '>')).drop 1)
    | c :: rest1 =>
      if c.isAlpha then
        let name := strLower (c :: rest1.takeWhile (fun d => ¬ (isPyWS d || d = '>' || d = '/'))).asString
        let restA := rest1.dropWhile (fun d => ¬ (isPyWS d || d = '>' || d = '/'))
        let (attrs, selfClose, rest2) := parseAttrs (restA.length + 1) restA
        HTok.openTag name attrs selfClose :: tokenize fuel rest2
      else
        HTok.text "<" :: tokenize fuel rest
    | [] => [HTok.text "<"]
  | fuel + 1, c :: rest =>
    let t := c :: rest.takeWhile (fun d => d ≠ '<')
    HTok.text t.asString :: tokenize fuel (rest.dropWhile (fun d => d ≠ '<'))

/-- Build a forest from tokens up to (excluding) the next unmatched close
tag; returns the remaining tokens starting at that close tag. -/
def buildNodes : Nat → List HTok → List Node × List HTok
  | 0, ts => ([], ts)
  | _ + 1, [] => ([], [])
  | fuel + 1, HTok.text s :: rest =>
    let (ns, r) := buildNodes fuel rest
    (Node.text s :: ns, r)
  | _ + 1, HTok.closeTag n :: rest => ([], HTok.closeTag n :: rest)
  | fuel + 1, HTok.openTag nm attrs sc :: rest =>
    if sc || voidElems.contains nm then
      let (ns, r) := buildNodes fuel rest
      (Node.tag nm attrs [] :: ns, r)
    else
      let (ch, r1) := buildNodes fuel rest
      match r1 with
      | HTok.closeTag _ :: r2 =>
        -- matching close consumed; a mismatched one is dropped, closing
        -- the innermost open element (html.parser-style recovery)
        let (ns, r) := buildNodes fuel r2
        (Node.tag nm attrs ch :: ns, r)
      | _ => (Node.tag nm attrs ch :: [], r1)

/-- Top-level driver: stray close tags at top level are skipped. -/
def buildTop : Nat → List HTok → List Node
  | 0, _ => []
  | _ + 1, [] => []
  | fuel + 1, ts =>
    let (ns, r) := buildNodes (2 * ts.length + 4) ts
    match r with
    | HTok.closeTag _ :: r2 => ns ++ buildTop fuel r2
    | _ => ns

/-- Model of `BeautifulSoup(content, "html.parser")`: the parsed forest. -/
def parseHTML (s : String) : List Node :=
  let toks := tokenize (s.length + 1) s.toList
  buildTop (toks.length + 1) toks

/-! ### Tree searches and mutation -/

mutual

/-- Pre-order hits of one node (given its following siblings `sibs`):
the node itself when its name is in `ns`, then hits in its subtree. -/
def collectNode (ns : List String) (sibs : List Node) : Node → List (Node × List Node)
  | Node.text _ => []
  | Node.tag nm attrs ch =>
    (if ns.contains nm then [(Node.tag nm attrs ch, sibs)] else [])
      ++ collectWithSibs ns ch

/-- Pre-order collection of all descendant tags whose name is in `ns`,
each paired with the list of its following siblings.  The first
components are exactly bs4 `find_all(ns)` in document order; the sibling
lists support the `find_next_sibling()` walk of `_split_by_headings`. -/
def collectWithSibs (ns : List String) : List Node → List (Node × List Node)
  | [] => []
  | n :: rest => collectNode ns rest n ++ collectWithSibs ns rest

end

/-- Model of `soup.find_all(ns)` (document order, recursive). -/
def find_all (ns : List String) (l : List Node) : List Node :=
  (collectWithSibs ns l).map Prod.fst

/-- Model of `soup.find(ns)`. -/
def find_first (ns : List String) (l : List Node) : Option Node :=
  (find_all ns l).head?

/-- Model of setting `tag[key] = value` on a bs4 tag's attribute dict:
replace in place if present, else append. -/
def setAttr : List (String × String) → String → String → List (String × String)
  | [], k, v => [(k, v)]
  | (k', v') :: rest, k, v =>
    if k' = k then (k, v) :: rest else (k', v') :: setAttr rest k v

mutual

/-- Set attribute `key := v` on the first matching tag within one node
(pre-order); the Bool reports whether a tag was found there. -/
def setFirstNode (ns : List String) (key v : String) : Node → Node × Bool
  | Node.text s => (Node.text s, false)
  | Node.tag nm attrs ch =>
    if ns.contains nm then (Node.tag nm (setAttr attrs key v) ch, true)
    else
      ((fun p => (Node.tag nm attrs p.1, p.2)) (setFirst ns key v ch))

/-- Set attribute `key := v` on the first pre-order descendant tag whose
name is in `ns` (models `soup.find(ns)` followed by an in-place
attribute assignment).  The Bool reports whether a tag was found. -/
def setFirst (ns : List String) (key v : String) : List Node → List Node × Bool
  | [] => ([], false)
  | n :: rest =>
    (fun p =>
      if p.2 then (p.1 :: rest, true)
      else ((fun q => (p.1 :: q.1, q.2)) (setFirst ns key v rest)))
      (setFirstNode ns key v n)

end

mutual

/-- Decomposition within one node: the node is removed entirely when its
name is in `ns`, else its subtree is cleaned. -/
def decomposeNode (ns : List String) : Node → List Node
  | Node.text s => [Node.text s]
  | Node.tag nm attrs ch =>
    if ns.contains nm then [] else [Node.tag nm attrs (decomposeAll ns ch)]

/-- Model of finding all tags named in `ns` and calling `.decompose()`
on each (removal of the element and its whole subtree). -/
def decomposeAll (ns : List String) : List Node → List Node
  | [] => []
  | n :: rest => decomposeNode ns n ++ decomposeAll ns rest

end

/-- Chapter content `"\n".join(pieces)` reparsed: pieces interleaved with
newline text nodes. -/
def joinNodes (l : List Node) : List Node :=
  l.intersperse (Node.text "\n")

/-! ### ContentDetector (`content_processor.py` lines 27-97) -/

/-- Characters allowed in a URL scheme after the initial letter
(CPython `urllib.parse.scheme_chars`). -/
def schemeChar (c : Char) : Bool :=
  c.isAlphanum || c = '+' || c = '-' || c = '.'

/-- Scheme extraction of CPython `urlsplit`: the part before the first
`:` when it is a well-formed scheme (lower-cased), else empty. -/
def splitScheme (l : List Char) : List Char × List Char :=
  match l.findIdx? (fun c => c = ':') with
  | some i =>
    if 0 < i ∧ (l.take 1).all Char.isAlpha ∧ (l.take i).all schemeChar then
      ((l.take i).map Char.toLower, l.drop (i + 1))
    else ([], l)
  | none => ([], l)

/-- Model of the fragment of `urllib.parse.urlparse` used by `_is_url`:
unsafe bytes (`\t\r\n`) are removed, the scheme and network location are
extracted, and mismatched square brackets in the netloc raise
`ValueError` (modelled as `none`). -/
def urlparseSN (url : String) : Option (String × String) :=
  let l := url.toList.filter (fun c => ¬ (c = '\t' || c = '\r' || c = '\n'))
  let (scheme, rest) := splitScheme l
  if rest.take 2 = ['/', '/'] then
    let netloc := (rest.drop 2).takeWhile (fun c => ¬ (c = '/' || c = '?' || c = '#'))
    if (netloc.contains '[' != netloc.contains ']') then none
    else some (scheme.asString, netloc.asString)
  else some (scheme.asString, "")

namespace ContentDetector

/-- Model of `ContentDetector._is_url`. -/
def is_url (text : String) : Bool :=
  if text.toList.contains '\n' then false
  else
    match urlparseSN text with
    | none => false
    | some (scheme, netloc) =>
      (scheme = "http" || scheme = "https") && netloc ≠ ""

/-- Search for the regex `<NAME[^>]*>` case-insensitively: an occurrence
of `<NAME` with some later `>`. -/
def searchTagOpen (name : String) (s : String) : Bool :=
  go (("<" ++ name).toList) (strLower s).toList
where
  go (p : List Char) : List Char → Bool
    | [] => false
    | c :: rest =>
      (p.isPrefixOf (c :: rest) && ((c :: rest).drop p.length).contains '>')
        || go p rest

/-- Search for `<h[1-6][^>]*>` case-insensitively. -/
def searchHeadingOpen (s : String) : Bool :=
  go (strLower s).toList
where
  go : List Char → Bool
    | '<' :: 'h' :: d :: rest =>
      (('1' ≤ d && d ≤ '6') && rest.contains '>')
        || go ('h' :: d :: rest)
    | _ :: rest => go rest
    | [] => false

/-- Count of non-overlapping matches of `<[^>]+>` (re.findall semantics):
state machine over the characters, `inTag` after an opening `<`,
`bufNE` once at least one non-`>` character followed it. -/
def countTags : List Char → Bool → Bool → Nat
  | [], _, _ => 0
  | c :: rest, false, _ =>
    if c = '<' then countTags rest true false else countTags rest false false
  | c :: rest, true, bufNE =>
    if c = '>' then
      (if bufNE then 1 else 0) + countTags rest false false
    else countTags rest true true

/-- Model of `ContentDetector._is_html`. -/
def is_html (text : String) : Bool :=
  searchTagOpen "html" text || searchTagOpen "body" text
    || searchTagOpen "div" text || searchTagOpen "p" text
    || searchTagOpen "span" text || searchHeadingOpen text
    || 3 ≤ countTags text.toList false false

/-- Python `re` `\s` class (ASCII fragment). -/
def isReWS (c : Char) : Bool := isPyWS c

/-- Does predicate `p` hold of some suffix of `l`? (`re.search`). -/
def existsSuffix (p : List Char → Bool) : List Char → Bool
  | [] => false
  | c :: rest => p (c :: rest) || existsSuffix p rest

/-- Does `p` hold of some suffix beginning at a line start?
(`re.search` with `re.MULTILINE` and a `^`-anchored pattern). -/
def existsAtLineStart (p : List Char → Bool) (l : List Char) : Bool :=
  go l true
where
  go : List Char → Bool → Bool
    | [], _ => false
    | c :: rest, atStart => (atStart && p (c :: rest)) || go rest (c = '\n')

/-- Matcher for `#{1,6}\s+\S+` at the current position. -/
def mdHeadingStrongAt (l : List Char) : Bool :=
  let r := (l.takeWhile (fun c => c = '#')).length
  decide (1 ≤ r ∧ r ≤ 6) &&
    match l.drop r with
    | [] => false
    | c :: rest => isReWS c && ¬ ((c :: rest).dropWhile isReWS).isEmpty

/-- Matcher for `#{1,6}\s+` at the current position. -/
def mdHeadingAt (l : List Char) : Bool :=
  let r := (l.takeWhile (fun c => c = '#')).length
  decide (1 ≤ r ∧ r ≤ 6) &&
    match l.drop r with
    | [] => false
    | c :: _ => isReWS c

/-- Matcher for `X[^X]+X` at the current position (`*x*`, `_x_`,
backtick-delimited inline code). -/
def mdDelim1At (d : Char) : List Char → Bool
  | c :: rest =>
    c = d &&
      (let m := rest.takeWhile (fun x => x ≠ d)
       ¬ m.isEmpty && ¬ (rest.drop m.length).isEmpty)
  | [] => false

/-- Matcher for `XX[^X]+XX` at the current position (`**x**`, `__x__`). -/
def mdDelim2At (d : Char) : List Char → Bool
  | c1 :: c2 :: rest =>
    c1 = d && c2 = d &&
      (let m := rest.takeWhile (fun x => x ≠ d)
       ¬ m.isEmpty &&
        match rest.drop m.length with
        | e1 :: e2 :: _ => e1 = d && e2 = d
        | _ => false)
  | _ => false

/-- Matcher for `\s*[-*+]\s+` at a line start. -/
def mdBulletAt (l : List Char) : Bool :=
  match l.dropWhile isReWS with
  | c :: d :: _ => (c = '-' || c = '*' || c = '+') && isReWS d
  | _ => false

/-- Matcher for `\s*\d+\.\s+` at a line start. -/
def mdOrderedAt (l : List Char) : Bool :=
  let rest := l.dropWhile isReWS
  let ds := rest.takeWhile Char.isDigit
  ¬ ds.isEmpty &&
    match rest.drop ds.length with
    | '.' :: e :: _ => isReWS e
    | _ => false

/-- Matcher for `\[([^\]]+)\]\(([^)]+)\)` at the current position. -/
def mdLinkAt : List Char → Bool
  | '[' :: rest =>
    let m := rest.takeWhile (fun x => x ≠ ']')
    ¬ m.isEmpty &&
      (match rest.drop m.length with
       | ']' :: '(' :: rest2 =>
         let m2 := rest2.takeWhile (fun x => x ≠ ')')
         ¬ m2.isEmpty && ¬ (rest2.drop m2.length).isEmpty
       | _ => false)
  | _ => false

/-- Matcher for `!\[([^\]]*)\]\(([^)]+)\)` at the current position. -/
def mdImageAt : List Char → Bool
  | '!' :: '[' :: rest =>
    let m := rest.takeWhile (fun x => x ≠ ']')
    (match rest.drop m.length with
     | ']' :: '(' :: rest2 =>
       let m2 := rest2.takeWhile (fun x => x ≠ ')')
       ¬ m2.isEmpty && ¬ (rest2.drop m2.length).isEmpty
     | _ => false)
  | _ => false

/-- The backquote character. -/
def btick : Char := Char.ofNat 96

/-- Matcher for a fenced code block marker (three backquotes) at a line
start. -/
def mdFenceAt : List Char → Bool
  | c1 :: c2 :: c3 :: _ => c1 = btick && c2 = btick && c3 = btick
  | _ => false

/-- Matcher for `>\s+` at a line start. -/
def mdQuoteAt : List Char → Bool
  | '>' :: d :: _ => isReWS d
  | _ => false

/-- Model of `ContentDetector._is_markdown`: one strong heading match is
enough, otherwise at least two of the twelve markdown patterns. -/
def is_markdown (text : String) : Bool :=
  let l := text.toList
  if existsAtLineStart mdHeadingStrongAt l then true
  else
    let pats : List Bool :=
      [existsAtLineStart mdHeadingAt l,
       existsSuffix (mdDelim2At '*') l,
       existsSuffix (mdDelim2At '_') l,
       existsSuffix (mdDelim1At '*') l,
       existsSuffix (mdDelim1At '_') l,
       existsAtLineStart mdBulletAt l,
       existsAtLineStart mdOrderedAt l,
       existsSuffix mdLinkAt l,
       existsSuffix mdImageAt l,
       existsAtLineStart mdFenceAt l,
       existsSuffix (mdDelim1At btick) l,
       existsAtLineStart mdQuoteAt l]
    2 ≤ (pats.filter id).length

/-- Model of `ContentDetector.detect_format`. -/
def detect_format (content : String) : String :=
  if content = "" then "plain"
  else
    let content := pyStrip content
    if is_url content then "url"
    else if pyStartsWith content "\x7b\\rtf" then "rtf"
    else if is_html content then "html"
    else if is_markdown content then "markdown"
    else "plain"

end ContentDetector

/-! ### CSSTemplates (`content_processor.py` lines 404-653)

The triple-quoted CSS literals are transcribed line by line (brace
characters written as escapes).  `get_template`'s on-disk override probe
(`templates/{name}.css` lookups) is filesystem I/O and is modelled as
always missing, so resolution falls through to the built-in templates,
exactly as in an installation without template files. -/

namespace CSSTemplates

/-- Model of `CSSTemplates.get_default_css`. -/
def get_default_css : String :=
  String.intercalate "\n"
    ["",
     "        /* Default ePub CSS Template */",
     "        body \x7b",
     "            font-family: Georgia, 'Times New Roman', serif;",
     "            font-size: 1em;",
     "            line-height: 1.6;",
     "            margin: 1em;",
     "            text-align: justify;",
     "        \x7d",
     "",
     "        h1, h2, h3, h4, h5, h6 \x7b",
     "            font-family: 'Helvetica Neue', Arial, sans-serif;",
     "            font-weight: bold;",
     "            line-height: 1.2;",
     "            margin-top: 1.5em;",
     "            margin-bottom: 0.5em;",
     "            text-align: left;",
     "        \x7d",
     "",
     "        h1 \x7b font-size: 2em; \x7d",
     "        h2 \x7b font-size: 1.75em; \x7d",
     "        h3 \x7b font-size: 1.5em; \x7d",
     "        h4 \x7b font-size: 1.25em; \x7d",
     "        h5 \x7b font-size: 1.1em; \x7d",
     "        h6 \x7b font-size: 1em; \x7d",
     "",
     "        p \x7b",
     "            margin: 0.5em 0 1em 0;",
     "            text-indent: 1.5em;",
     "        \x7d",
     "",
     "        p:first-of-type,",
     "        h1 + p, h2 + p, h3 + p, h4 + p, h5 + p, h6 + p \x7b",
     "            text-indent: 0;",
     "        \x7d",
     "",
     "        blockquote \x7b",
     "            margin: 1em 2em;",
     "            font-style: italic;",
     "            border-left: 3px solid #ccc;",
     "            padding-left: 1em;",
     "        \x7d",
     "",
     "        code \x7b",
     "            font-family: 'Courier New', monospace;",
     "            font-size: 0.9em;",
     "            background-color: #f4f4f4;",
     "            padding: 0.1em 0.3em;",
     "        \x7d",
     "",
     "        pre \x7b",
     "            font-family: 'Courier New', monospace;",
     "            font-size: 0.9em;",
     "            background-color: #f4f4f4;",
     "            padding: 1em;",
     "            overflow-x: auto;",
     "            white-space: pre-wrap;",
     "        \x7d",
     "",
     "        ul, ol \x7b",
     "            margin: 1em 0;",
     "            padding-left: 2em;",
     "        \x7d",
     "",
     "        li \x7b",
     "            margin: 0.5em 0;",
     "        \x7d",
     "",
     "        a \x7b",
     "            color: #0066cc;",
     "            text-decoration: underline;",
     "        \x7d",
     "",
     "        img \x7b",
     "            max-width: 100%;",
     "            height: auto;",
     "            display: block;",
     "            margin: 1em auto;",
     "        \x7d",
     "        "]

/-- Model of `CSSTemplates.get_minimal_css`. -/
def get_minimal_css : String :=
  String.intercalate "\n"
    ["",
     "        /* Minimal ePub CSS Template */",
     "        body \x7b",
     "            font-family: serif;",
     "            font-size: 1em;",
     "            line-height: 1.6;",
     "            margin: 1em;",
     "        \x7d",
     "",
     "        h1, h2, h3, h4, h5, h6 \x7b",
     "            font-family: serif;",
     "            font-weight: normal;",
     "            margin-top: 1.2em;",
     "            margin-bottom: 0.5em;",
     "        \x7d",
     "",
     "        p \x7b",
     "            margin: 0.75em 0;",
     "        \x7d",
     "",
     "        a \x7b",
     "            color: inherit;",
     "            text-decoration: underline;",
     "        \x7d",
     "",
     "        img \x7b",
     "            max-width: 100%;",
     "            height: auto;",
     "            display: block;",
     "            margin: 1em auto;",
     "        \x7d",
     "        "]

/-- Model of `CSSTemplates.get_modern_css`. -/
def get_modern_css : String :=
  String.intercalate "\n"
    ["",
     "        /* Modern ePub CSS Template */",
     "        /* Note: Remote font imports removed for ePub compatibility */",
     "",
     "        body \x7b",
     "            font-family: 'Merriweather', Georgia, serif;",
     "            font-size: 1em;",
     "            font-weight: 300;",
     "            line-height: 1.8;",
     "            margin: 1.5em;",
     "            color: #333;",
     "            text-align: justify;",
     "            hyphens: auto;",
     "        \x7d",
     "",
     "        h1, h2, h3, h4, h5, h6 \x7b",
     "            font-family: 'Open Sans', 'Helvetica Neue', sans-serif;",
     "            font-weight: 600;",
     "            line-height: 1.3;",
     "            margin-top: 2em;",
     "            margin-bottom: 0.75em;",
     "            color: #111;",
     "            text-align: left;",
     "        \x7d",
     "",
     "        h1 \x7b",
     "            font-size: 2.5em;",
     "            font-weight: 700;",
     "            border-bottom: 2px solid #e0e0e0;",
     "            padding-bottom: 0.3em;",
     "        \x7d",
     "",
     "        h2 \x7b font-size: 2em; \x7d",
     "        h3 \x7b font-size: 1.5em; \x7d",
     "        h4 \x7b font-size: 1.25em; \x7d",
     "",
     "        p \x7b",
     "            margin: 0 0 1.5em 0;",
     "            text-indent: 0;",
     "        \x7d",
     "",
     "        p + p \x7b",
     "            text-indent: 1.5em;",
     "        \x7d",
     "",
     "        blockquote \x7b",
     "            margin: 2em 0;",
     "            padding: 1em 2em;",
     "            background: linear-gradient(to right, #f7f7f7 0%, #ffffff 100%);",
     "            border-left: 4px solid #4a90e2;",
     "            font-style: italic;",
     "            font-size: 1.05em;",
     "        \x7d",
     "",
     "        code \x7b",
     "            font-family: 'Consolas', 'Monaco', monospace;",
     "            font-size: 0.85em;",
     "            background: #f5f5f5;",
     "            padding: 0.2em 0.4em;",
     "            border-radius: 3px;",
     "            color: #d14;",
     "        \x7d",
     "",
     "        pre \x7b",
     "            background: #2d2d2d;",
     "            color: #f8f8f2;",
     "            padding: 1.5em;",
     "            border-radius: 5px;",
     "            overflow-x: auto;",
     "            font-size: 0.9em;",
     "            line-height: 1.4;",
     "        \x7d",
     "",
     "        a \x7b",
     "            color: #4a90e2;",
     "            text-decoration: none;",
     "            border-bottom: 1px dotted #4a90e2;",
     "            transition: color 0.3s ease;",
     "        \x7d",
     "",
     "        a:hover \x7b",
     "            color: #357abd;",
     "            border-bottom-style: solid;",
     "        \x7d",
     "",
     "        img \x7b",
     "            max-width: 100%;",
     "            height: auto;",
     "            display: block;",
     "            margin: 2em auto;",
     "            box-shadow: 0 4px 6px rgba(0,0,0,0.1);",
     "            border-radius: 4px;",
     "        \x7d",
     "",
     "        .drop-cap \x7b",
     "            float: left;",
     "            font-size: 4em;",
     "            line-height: 1;",
     "            margin: 0 0.1em 0 0;",
     "            font-weight: 700;",
     "            color: #4a90e2;",
     "        \x7d",
     "        "]

/-- Model of `CSSTemplates.get_template` (built-in fallback path). -/
def get_template (name : String) : String :=
  if name = "minimal" then get_minimal_css
  else if name = "modern" then get_modern_css
  else get_default_css

end CSSTemplates

/-! ### ContentConverter (`content_processor.py` lines 100-266)

Only the pure converters are embedded.  `_convert_url` performs network
I/O, and `_convert_markdown` / `_convert_rtf` delegate wholesale to the
`markdown2` / `striprtf` libraries; the claims under verification only
exercise the `html` conversion path. -/

namespace ContentConverter

/-- Append `child` as last child of the first pre-order tag named in
`ns` (models bs4 `head.append(style)` after a `find`). -/
def appendChildToFirst (ns : List String) (child : Node) : List Node → List Node × Bool
  | [] => ([], false)
  | Node.text s :: rest =>
    let (r, b) := appendChildToFirst ns child rest
    (Node.text s :: r, b)
  | Node.tag nm attrs ch :: rest =>
    if ns.contains nm then (Node.tag nm attrs (ch ++ [child]) :: rest, true)
    else
      match appendChildToFirst ns child ch with
      | (ch', true) => (Node.tag nm attrs ch' :: rest, true)
      | (_, false) =>
        let (r, b) := appendChildToFirst ns child rest
        (Node.tag nm attrs ch :: r, b)

/-- Insert `child` as first child of the first pre-order tag named in
`ns` (models `soup.html.insert(0, head)`). -/
def insertChildAtFront (ns : List String) (child : Node) : List Node → List Node × Bool
  | [] => ([], false)
  | Node.text s :: rest =>
    let (r, b) := insertChildAtFront ns child rest
    (Node.text s :: r, b)
  | Node.tag nm attrs ch :: rest =>
    if ns.contains nm then (Node.tag nm attrs (child :: ch) :: rest, true)
    else
      match insertChildAtFront ns child ch with
      | (ch', true) => (Node.tag nm attrs ch' :: rest, true)
      | (_, false) =>
        let (r, b) := insertChildAtFront ns child rest
        (Node.tag nm attrs ch :: r, b)

/-- Model of `ContentConverter._convert_html`: extract the `<title>`
text, decompose all `script`/`style`/`meta`/`link` elements, and return
`str(body)` when a `<body>` exists, else the whole serialized soup.
Returns `(html_content, metadata title)`. -/
def convert_html (content : String) : String × Option String :=
  let soup := parseHTML content
  let title :=
    match find_first ["title"] soup with
    | some t => some (Node.getText t)
    | none => none
  let soup := decomposeAll ["script", "style", "meta", "link"] soup
  let html_content :=
    match find_first ["body"] soup with
    | some b => Node.render b
    | none => renderForest soup
  (html_content, title)

/-- Model of `ContentConverter._apply_styling`.  If the fragment has no
`<html...>` tag (regex search), wrap it in the styled document skeleton;
otherwise inject a `<style>` element into (or create) the `<head>` of
the parsed document.  When the regex matched but the parse tree has no
`html` element the source would raise (`soup.html` is `None`); that
unreachable corner renders the soup unchanged here. -/
def apply_styling (html_content : String) : String :=
  if ¬ ContentDetector.searchTagOpen "html" html_content then
    "\n<!DOCTYPE html>\n<html>\n<head>\n    <meta charset=\"UTF-8\">\n    <style>\n        "
      ++ CSSTemplates.get_default_css
      ++ "\n    </style>\n</head>\n<body>\n    " ++ html_content
      ++ "\n</body>\n</html>\n            "
  else
    let soup := parseHTML html_content
    let style := Node.tag "style" [] [Node.text CSSTemplates.get_default_css]
    match appendChildToFirst ["head"] style soup with
    | (soup', true) => renderForest soup'
    | (_, false) =>
      let head := Node.tag "head" [] [style]
      match insertChildAtFront ["html"] head soup with
      | (soup', true) => renderForest soup'
      | (_, false) => renderForest soup

/-- Model of `ContentConverter.convert` on the `"html"` branch:
`_convert_html` followed by `_apply_styling`.  Returns the styled HTML
and the metadata title. -/
def convertHtmlFormat (content : String) : String × Option String :=
  let (html_content, title) := convert_html content
  (apply_styling html_content, title)

end ContentConverter

/-! ### ChapterSplitter (`content_processor.py` lines 269-328) -/

/-- A chapter dict `{"title": ..., "content": ...}`, with the content
string represented by its parse forest. -/
structure Chapter where
  title : String
  content : List Node
deriving DecidableEq, Repr

namespace ChapterSplitter

/-- The heading levels tracked by `split_content`. -/
def headingNames : List String := ["h1", "h2"]

/-- The block-level elements walked by `_split_by_word_count`. -/
def blockNames : List String :=
  ["p", "div", "h1", "h2", "h3", "h4", "h5", "h6", "blockquote", "ul", "ol"]

/-- Python `title or "Chapter 1"`: `None` and `""` are falsy. -/
def pyTitleOr (t : Option String) (d : String) : String :=
  match t with
  | some s => if s = "" then d else s
  | none => d

/-- One iteration of the `_split_by_word_count` accumulation loop:
`chapters`, `current_chapter_content`, `current_word_count`,
`chapter_num`. -/
structure WCState where
  chapters : List Chapter
  cur : List Node
  curCount : Nat
  num : Nat
deriving Repr

/-- Processing of one block element: flush the current chapter when
adding the element would exceed the threshold and the current chapter is
non-empty; the element is then appended to the (possibly freshly
emptied) buffer, so after a flush the buffer is `[el]` with count `w`. -/
def wcStep (wpc : Nat) (st : WCState) (el : Node) : WCState :=
  let w := (pySplitWS (Node.getText el)).length
  if wpc < st.curCount + w ∧ ¬ st.cur.isEmpty then
    { chapters := st.chapters ++ [⟨"Chapter " ++ toString st.num, joinNodes st.cur⟩],
      cur := [el], curCount := w, num := st.num + 1 }
  else
    { st with cur := st.cur ++ [el], curCount := st.curCount + w }

/-- Model of `ChapterSplitter._split_by_word_count`. -/
def split_by_word_count (wpc : Nat) (soup : List Node) (title : Option String) :
    List Chapter :=
  let words := pySplitWS (getTextF soup)
  if words.length ≤ wpc then [⟨pyTitleOr title "Chapter 1", soup⟩]
  else
    let elements := find_all blockNames soup
    let st := elements.foldl (wcStep wpc) ⟨[], [], 0, 1⟩
    if ¬ st.cur.isEmpty then
      st.chapters ++ [⟨"Chapter " ++ toString st.num, joinNodes st.cur⟩]
    else st.chapters

/-- The `find_next_sibling()` walk of `_split_by_headings`: following
sibling *tags* (text siblings are skipped by `find_next_sibling`) up to
the first one that equals some tracked heading (bs4 `in` uses structural
tag equality). -/
def gatherSiblings (headings : List Node) (sibs : List Node) : List Node :=
  (sibs.filter fun n => match n with | Node.tag _ _ _ => true | _ => false).takeWhile
    (fun n => ¬ headings.contains n)

/-- The per-heading chapter loop of `_split_by_headings`: a chapter is
appended only when its gathered content is non-empty. -/
def headingChapters (headings : List Node) (hws : List (Node × List Node)) :
    List Chapter :=
  hws.filterMap fun hp =>
    let chapter_content := gatherSiblings headings hp.2
    if chapter_content.isEmpty then none
    else some ⟨pyStrip (Node.getText hp.1), joinNodes chapter_content⟩

/-- Model of `ChapterSplitter._split_by_headings` (with the whole-soup
fallback chapter). -/
def split_by_headings (soup : List Node) (hws : List (Node × List Node)) :
    List Chapter :=
  if (headingChapters (hws.map Prod.fst) hws).isEmpty then [⟨"Chapter 1", soup⟩]
  else headingChapters (hws.map Prod.fst) hws

/-- Model of `ChapterSplitter.split_content`. -/
def split_content (wpc : Nat) (html_content : String) (title : Option String) :
    List Chapter :=
  let soup := parseHTML html_content
  let hws := collectWithSibs headingNames soup
  if 1 < (find_all headingNames soup).length then split_by_headings soup hws
  else split_by_word_count wpc soup title

end ChapterSplitter

/-! ### TOCGenerator (`content_processor.py` lines 331-401) -/

namespace TOCGenerator

/-- Model of Python `enumerate(chapters, i)`. -/
def enumFrom {α : Type} (i : Nat) : List α → List (Nat × α)
  | [] => []
  | a :: t => (i, a) :: enumFrom (i + 1) t

/-- Model of `TOCGenerator.generate_toc_html`. -/
def generate_toc_html (chapters : List Chapter) (title : String) : String :=
  let toc_items := (enumFrom 1 chapters).map fun p =>
    "<li><a href=\"#chapter_" ++ toString p.1 ++ "\">" ++ htmlEscape p.2.title
      ++ "</a></li>"
  "\n        <div class=\"toc\">\n            <h1>" ++ htmlEscape title
    ++ "</h1>\n            <nav>\n                <ul>\n                    "
    ++ String.join toc_items
    ++ "\n                </ul>\n            </nav>\n        </div>\n        "

/-- The heading levels that receive anchors. -/
def anchorNames : List String := ["h1", "h2", "h3"]

/-- Anchoring of one chapter: set `id` on the first `h1`/`h2`/`h3`, or
wrap the whole content in a `div` bearing the id when no heading
exists. -/
def anchorOne (i : Nat) (c : Chapter) : Chapter :=
  let anchor := "chapter_" ++ toString i
  match find_first anchorNames c.content with
  | some _ => { c with content := (setFirst anchorNames "id" anchor c.content).1 }
  | none => { c with content := [Node.tag "div" [("id", anchor)] c.content] }

/-- The `enumerate(chapters, 1)` loop of `add_anchors_to_chapters`. -/
def add_anchors_aux (i : Nat) : List Chapter → List Chapter
  | [] => []
  | c :: rest => anchorOne i c :: add_anchors_aux (i + 1) rest

/-- Model of `TOCGenerator.add_anchors_to_chapters`. -/
def add_anchors_to_chapters (chapters : List Chapter) : List Chapter :=
  add_anchors_aux 1 chapters

end TOCGenerator

/-! ### Pipeline orchestrator (`content_processor.py` lines 656-691)

`process_core` models `process_clipboard_content` downstream of
`converter.convert`: it receives the converted HTML and the converter's
metadata title (conversion itself dispatches to network fetches and the
`markdown2`/`striprtf` libraries, outside the pure model). -/

/-- The recognized option keys with their `options.get` defaults. -/
structure POptions where
  split_chapters : Bool := true
  words_per_chapter : Nat := 3000
  force_toc : Bool := false
  css_template : String := "default"
deriving Repr

/-- The orchestrator's result mapping (chapters, css, format, toc_html;
the metadata dict is carried through unchanged and elided). -/
structure ProcessedContent where
  chapters : List Chapter
  css : String
  format : String
  toc_html : Option String
deriving Repr

/-- The anchor/TOC phase of `process_clipboard_content` (lines 677-680):
when more than one chapter resulted or `force_toc` is set, anchor the
chapters and generate the TOC HTML, else leave `toc_html` as `None`. -/
def anchorAndToc (chapters : List Chapter) (force_toc : Bool) :
    List Chapter × Option String :=
  if 1 < chapters.length || force_toc then
    let chapters := TOCGenerator.add_anchors_to_chapters chapters
    (chapters, some (TOCGenerator.generate_toc_html chapters "Table of Contents"))
  else (chapters, none)

/-- Model of `process_clipboard_content` after conversion: split (or
wrap) into chapters, then anchor chapters and generate the TOC exactly
when more than one chapter resulted or `force_toc` was set. -/
def process_core (html_content : String) (metaTitle : Option String)
    (format_type : String) (options : POptions) : ProcessedContent :=
  let chapters :=
    if options.split_chapters then
      ChapterSplitter.split_content options.words_per_chapter html_content
        (some (metaTitle.getD "Untitled"))
    else [⟨metaTitle.getD "Content", parseHTML html_content⟩]
  let state := anchorAndToc chapters options.force_toc
  { chapters := state.1,
    css := CSSTemplates.get_template options.css_template,
    format := format_type,
    toc_html := state.2 }

/-! ### ePub assembly (`src/converter.py` lines 806-972)

`ensure_xhtml` embeds the `_ensure_xhtml` helper of `_create_epub_async`
(primary path); `cached_chapter_content` embeds the per-chapter wrapping
of `_create_epub_from_cached_async`; `create_epub_async` models the
spine/TOC construction of `_create_epub_async` at the level of document
uids (book metadata, CSS item and file I/O elided). -/

/-- The minimal XHTML wrapper built by `_ensure_xhtml` (its f-string). -/
def xhtmlSkeleton (doc_title inner : String) : String :=
  "\n<html xmlns=\"http://www.w3.org/1999/xhtml\">\n<head>\n    <meta charset=\"UTF-8\"/>\n    <title>"
    ++ doc_title
    ++ "</title>\n    <link rel=\"stylesheet\" type=\"text/css\" href=\"style.css\"/>\n</head>\n<body>\n    <h1>"
    ++ doc_title ++ "</h1>\n    " ++ inner ++ "\n</body>\n</html>"

/-- Model of `body.decode_contents()`. -/
def decodeContents (ch : List Node) : String := renderForest ch

/-- Model of `_ensure_xhtml` in `_create_epub_async`: strip, remove NUL
bytes, extract the body's inner HTML when the content parses to a
document with a `<body>` (an empty extraction keeps the full text), and
unconditionally wrap in the minimal XHTML skeleton. -/
def ensure_xhtml (doc_title content : String) : String :=
  let txt := stripNul (pyStrip content)
  let soup := parseHTML txt
  let inner :=
    match find_first ["body"] soup with
    | some (Node.tag _ _ ch) =>
      let d := decodeContents ch
      if d = "" then txt else d
    | _ => txt
  xhtmlSkeleton doc_title inner

/-- The chapter-wrapping skeleton of `_create_epub_from_cached_async`
(its f-string). -/
def cachedWrap (title content : String) : String :=
  "<!DOCTYPE html>\n<html xmlns=\"http://www.w3.org/1999/xhtml\">\n<head>\n    <title>"
    ++ title
    ++ "</title>\n    <link rel=\"stylesheet\" type=\"text/css\" href=\"style.css\"/>\n</head>\n<body>\n    <h1>"
    ++ title ++ "</h1>\n    " ++ content ++ "\n</body>\n</html>"

/-- Model of the per-chapter content logic of
`_create_epub_from_cached_async`: content already starting with
`<!DOCTYPE` or `<html` (after stripping) is used as-is, anything else is
wrapped. -/
def cached_chapter_content (title content : String) : String :=
  if pyStartsWith (pyStrip content) "<!DOCTYPE" || pyStartsWith (pyStrip content) "<html" then
    content
  else cachedWrap title content

/-- The spine and navigation listing (by document uid) of an assembled
book. -/
structure EpubBookModel where
  spine : List String
  toc : List String
deriving DecidableEq, Repr

/-- Python truthiness of the optional `toc_html` string. -/
def tocTruthy (toc_html : Option String) : Bool :=
  match toc_html with
  | some s => s ≠ ""
  | none => false

/-- Uids of the chapter documents `chapter_1 .. chapter_n`. -/
def chapterUids (n : Nat) : List String :=
  (List.range n).map (fun i => "chapter_" ++ toString (i + 1))

/-- Model of the document-list construction of `_create_epub_async`:
`None` when there are no chapters; otherwise `epub_chapters` is the
optional `toc` page followed by the chapter documents, the spine is
`["nav"] + epub_chapters` and `book.toc = epub_chapters`. -/
def create_epub_async (processed : ProcessedContent) : Option EpubBookModel :=
  if processed.chapters.isEmpty then none
  else
    let epub_chapters :=
      (if tocTruthy processed.toc_html then ["toc"] else [])
        ++ chapterUids processed.chapters.length
    some { spine := "nav" :: epub_chapters, toc := epub_chapters }

/-- A full HTML document with `<script>`, `<style>`, `<meta>` and
`<link>` elements in the head and a `<script>` in the body (the
script/style-stripping scenario's input). -/
def sampleHtmlDoc : String :=
  "<html><head><title>Sample Page</title><meta charset=\"utf-8\"><link rel=\"stylesheet\" href=\"style.css\"><script>var a = 1;</script><style>p \x7b color: red; \x7d</style></head><body><p>Hello</p><script>alert(2);</script></body></html>"

/-! ## Helper lemmas -/

/-- `pyStripL` is left-trim followed by Mathlib's right-trim. -/
theorem pyStripL_eq (l : List Char) :
    pyStripL l = (l.dropWhile isPyWS).rdropWhile isPyWS := rfl

theorem dropWhile_of_dropWhile_prefix {p : Char → Bool} {A B : List Char}
    (hA : List.dropWhile p A = A) (hpre : B <+: A) :
    List.dropWhile p B = B := by
  cases B with
  | nil => rfl
  | cons b t =>
    have hbA : ∃ t', A = b :: t' := by
      rcases hpre with ⟨u, hu⟩
      exact ⟨t ++ u, by rw [← hu]; rfl⟩
    rcases hbA with ⟨t', ht'⟩
    have hnb : ¬ p b = true := by
      intro hb
      rw [ht', List.dropWhile_cons, if_pos hb] at hA
      have hlen : (List.dropWhile p t').length ≤ t'.length :=
        (List.dropWhile_suffix p).length_le
      rw [hA] at hlen
      simp only [List.length_cons] at hlen
      omega
    rw [List.dropWhile_cons, if_neg hnb]

theorem pyStripL_idem (l : List Char) : pyStripL (pyStripL l) = pyStripL l := by
  have h1 : List.dropWhile isPyWS (pyStripL l) = pyStripL l := by
    rw [pyStripL_eq]
    exact dropWhile_of_dropWhile_prefix (List.dropWhile_idempotent isPyWS l)
      (List.rdropWhile_prefix isPyWS (l.dropWhile isPyWS))
  rw [pyStripL_eq (pyStripL l), h1, pyStripL_eq, List.rdropWhile_idempotent]

theorem pyStrip_idem (s : String) : pyStrip (pyStrip s) = pyStrip s := by
  unfold pyStrip
  rw [List.toList_asString, pyStripL_idem]

theorem add_anchors_aux_length (i : Nat) (l : List Chapter) :
    (TOCGenerator.add_anchors_aux i l).length = l.length := by
  induction l generalizing i with
  | nil => rfl
  | cons c rest ih => simp [TOCGenerator.add_anchors_aux, ih]

theorem add_anchors_length (l : List Chapter) :
    (TOCGenerator.add_anchors_to_chapters l).length = l.length :=
  add_anchors_aux_length 1 l

/-- The two components of `anchorAndToc` agree with the guard. -/
theorem anchorAndToc_spec (chs : List Chapter) (force : Bool) :
    ((anchorAndToc chs force).2 ≠ none ↔
      (1 < (anchorAndToc chs force).1.length ∨ force = true)) := by
  unfold anchorAndToc
  by_cases h : (decide (1 < chs.length) || force) = true
  · simp only [decide_eq_true_eq, h, if_pos]
    simp only [Bool.or_eq_true, decide_eq_true_eq] at h
    constructor
    · intro _
      rcases h with h | h
      · exact Or.inl (by rw [add_anchors_length]; exact h)
      · exact Or.inr h
    · intro _; simp
  · simp only [h, if_neg, Bool.not_eq_true]
    simp only [Bool.or_eq_true, decide_eq_true_eq, not_or, Bool.not_eq_true] at h
    constructor
    · intro hn; exact absurd rfl hn
    · rintro (hl | hf)
      · exact absurd hl h.1
      · rw [hf] at h; exact absurd h.2 (by simp)

theorem filterMap_eq_nil_of {α β : Type} (f : α → Option β) :
    ∀ l : List α, (∀ a ∈ l, f a = none) → l.filterMap f = [] := by
  intro l h
  induction l with
  | nil => rfl
  | cons a t ih =>
    rw [List.filterMap_cons, h a (by simp)]
    exact ih fun x hx => h x (by simp [hx])

theorem joinNodes_ne_nil {l : List Node} (h : l ≠ []) : joinNodes l ≠ [] := by
  cases l with
  | nil => exact absurd rfl h
  | cons a t => cases t <;> simp [joinNodes, List.intersperse]

/-- Every `wcStep` leaves a non-empty current chapter buffer. -/
theorem wcStep_cur_ne (wpc : Nat) (st : ChapterSplitter.WCState) (el : Node) :
    ¬ (ChapterSplitter.wcStep wpc st el).cur.isEmpty = true := by
  simp only [ChapterSplitter.wcStep]
  split <;> simp

/-- The word-count fold ends with a non-empty buffer unless it started
empty and processed nothing. -/
theorem wc_fold_cur (wpc : Nat) :
    ∀ (els : List Node) (st : ChapterSplitter.WCState),
      (¬ st.cur.isEmpty = true ∨ els ≠ []) →
      ¬ ((els.foldl (ChapterSplitter.wcStep wpc) st).cur.isEmpty = true) := by
  intro els
  induction els with
  | nil =>
    intro st h
    rcases h with h | h
    · exact h
    · exact absurd rfl h
  | cons e es ih =>
    intro st _
    rw [List.foldl_cons]
    exact ih _ (Or.inl (wcStep_cur_ne wpc st e))

/-- `wcStep` never deletes already-flushed chapters. -/
theorem wcStep_chapters_mono (wpc : Nat) (st : ChapterSplitter.WCState) (el : Node)
    (h : st.chapters ≠ []) : (ChapterSplitter.wcStep wpc st el).chapters ≠ [] := by
  simp only [ChapterSplitter.wcStep]
  split <;> simp_all

/-- The fold never deletes already-flushed chapters. -/
theorem wc_fold_chapters_mono (wpc : Nat) :
    ∀ (els : List Node) (st : ChapterSplitter.WCState),
      st.chapters ≠ [] →
      (els.foldl (ChapterSplitter.wcStep wpc) st).chapters ≠ [] := by
  intro els
  induction els with
  | nil => intro st h; exact h
  | cons e es ih =>
    intro st h
    rw [List.foldl_cons]
    exact ih _ (wcStep_chapters_mono wpc st e h)

/-- When the remaining words push past the threshold and the buffer is
already non-empty, at least one chapter is flushed by the fold. -/
theorem wc_fold_chapters_ne (wpc : Nat) :
    ∀ (els : List Node) (st : ChapterSplitter.WCState),
      ¬ st.cur.isEmpty = true → els ≠ [] →
      wpc < st.curCount + (els.map (fun el => (pySplitWS (Node.getText el)).length)).sum →
      (els.foldl (ChapterSplitter.wcStep wpc) st).chapters ≠ [] := by
  intro els
  induction els with
  | nil => intro st _ h2 _; exact absurd rfl h2
  | cons e es ih =>
    intro st hcur _ hsum
    rw [List.foldl_cons]
    by_cases hc : wpc < st.curCount + (pySplitWS (Node.getText e)).length ∧
        ¬ st.cur.isEmpty = true
    · apply wc_fold_chapters_mono
      simp only [ChapterSplitter.wcStep]
      rw [if_pos hc]
      simp
    · have hle : ¬ wpc < st.curCount + (pySplitWS (Node.getText e)).length :=
        fun h => hc ⟨h, hcur⟩
      have hstep : (ChapterSplitter.wcStep wpc st e) =
          { chapters := st.chapters, cur := st.cur ++ [e],
            curCount := st.curCount + (pySplitWS (Node.getText e)).length,
            num := st.num } := by
        simp only [ChapterSplitter.wcStep]
        rw [if_neg hc]
      rw [hstep]
      cases es with
      | nil =>
        exfalso
        simp only [List.map_cons, List.map_nil, List.sum_cons, List.sum_nil] at hsum
        omega
      | cons e2 es2 =>
        apply ih
        · simp
        · simp
        · simp only [List.map_cons, List.sum_cons] at hsum ⊢
          omega

/-- Setting the same attribute twice equals setting it once. -/
theorem setAttr_idem (attrs : List (String × String)) (k v : String) :
    setAttr (setAttr attrs k v) k v = setAttr attrs k v := by
  induction attrs with
  | nil => simp [setAttr]
  | cons a rest ih =>
    obtain ⟨k', v'⟩ := a
    by_cases h : k' = k
    · simp [setAttr, h]
    · simp [setAttr, h, ih]

mutual

/-- When no matching tag is found in a node, `setFirstNode` leaves it
unchanged. -/
theorem setFirstNode_unchanged (ns : List String) (key v : String) :
    ∀ n : Node, (setFirstNode ns key v n).2 = false → (setFirstNode ns key v n).1 = n
  | Node.text s => by simp [setFirstNode]
  | Node.tag nm attrs ch => by
    simp only [setFirstNode]
    by_cases h : ns.contains nm = true
    · rw [if_pos h]
      intro hf
      simp at hf
    · rw [if_neg h]
      intro hf
      have hf' : (setFirst ns key v ch).2 = false := hf
      rw [setFirst_unchanged ns key v ch hf']

/-- When no matching tag is found in a forest, `setFirst` leaves it
unchanged. -/
theorem setFirst_unchanged (ns : List String) (key v : String) :
    ∀ l : List Node, (setFirst ns key v l).2 = false → (setFirst ns key v l).1 = l
  | [] => by simp [setFirst]
  | n :: rest => by
    simp only [setFirst]
    by_cases h : (setFirstNode ns key v n).2 = true
    · rw [if_pos h]
      intro hf
      simp at hf
    · rw [if_neg h]
      intro hf
      rw [setFirstNode_unchanged ns key v n (by simpa using h),
        setFirst_unchanged ns key v rest hf]

end

mutual

/-- Re-running `setFirstNode` on its own output is a no-op when a tag
was found (the same tag is found again and the attribute is re-set to
the same value). -/
theorem setFirstNode_idem (ns : List String) (key v : String) :
    ∀ n : Node, (setFirstNode ns key v n).2 = true →
      setFirstNode ns key v (setFirstNode ns key v n).1 = setFirstNode ns key v n
  | Node.text s => by
    intro h
    simp [setFirstNode] at h
  | Node.tag nm attrs ch => by
    intro ht
    simp only [setFirstNode] at ht ⊢
    by_cases h : ns.contains nm = true
    · rw [if_pos h]
      show setFirstNode ns key v (Node.tag nm (setAttr attrs key v) ch) = _
      simp only [setFirstNode]
      rw [if_pos h, setAttr_idem]
    · rw [if_neg h] at ht ⊢
      have ht' : (setFirst ns key v ch).2 = true := ht
      show setFirstNode ns key v (Node.tag nm attrs (setFirst ns key v ch).1) = _
      simp only [setFirstNode]
      rw [if_neg h, setFirst_idem ns key v ch ht']

/-- Re-running `setFirst` on its own output is a no-op when a tag was
found. -/
theorem setFirst_idem (ns : List String) (key v : String) :
    ∀ l : List Node, (setFirst ns key v l).2 = true →
      setFirst ns key v (setFirst ns key v l).1 = setFirst ns key v l
  | [] => by
    intro h
    simp [setFirst] at h
  | n :: rest => by
    intro ht
    by_cases h : (setFirstNode ns key v n).2 = true
    · simp only [setFirst, if_pos h] at ht ⊢
      simp only [setFirst, setFirstNode_idem ns key v n h, if_pos h]
    · simp only [setFirst, if_neg h] at ht ⊢
      rw [setFirstNode_unchanged ns key v n (by simpa using h)]
      simp only [setFirst, if_neg h,
        setFirst_idem ns key v rest ht,
        setFirstNode_unchanged ns key v n (by simpa using h)]

end

mutual

/-- The found-flag of `setFirstNode` agrees with non-emptiness of the
pre-order hit list of the node. -/
theorem setFirstNode_flag (ns : List String) (key v : String) :
    ∀ (n : Node) (sibs : List Node),
      ((setFirstNode ns key v n).2 = true ↔ collectNode ns sibs n ≠ [])
  | Node.text s, sibs => by simp [setFirstNode, collectNode]
  | Node.tag nm attrs ch, sibs => by
    simp only [setFirstNode, collectNode]
    by_cases h : ns.contains nm = true
    · rw [if_pos h, if_pos h]
      simp
    · rw [if_neg h, if_neg h]
      simp only [List.nil_append]
      exact setFirst_flag ns key v ch

/-- The found-flag of `setFirst` agrees with non-emptiness of the
pre-order hit list of the forest. -/
theorem setFirst_flag (ns : List String) (key v : String) :
    ∀ l : List Node, ((setFirst ns key v l).2 = true ↔ collectWithSibs ns l ≠ [])
  | [] => by simp [setFirst, collectWithSibs]
  | n :: rest => by
    simp only [setFirst, collectWithSibs]
    by_cases h : (setFirstNode ns key v n).2 = true
    · rw [if_pos h]
      have hn : collectNode ns rest n ≠ [] := (setFirstNode_flag ns key v n rest).mp h
      simp [hn]
    · rw [if_neg h]
      have hn : collectNode ns rest n = [] := by
        by_contra hc
        exact h ((setFirstNode_flag ns key v n rest).mpr hc)
      simp only [hn, List.nil_append]
      exact setFirst_flag ns key v rest

end

/-- `find` succeeds exactly when the pre-order hit list is non-empty. -/
theorem find_first_ne_none_iff (ns : List String) (l : List Node) :
    find_first ns l ≠ none ↔ collectWithSibs ns l ≠ [] := by
  cases h : collectWithSibs ns l <;> simp [find_first, find_all, h]

/-- Anchoring a chapter twice equals anchoring it once, provided the
chapter content contains an `h1`/`h2`/`h3` heading. -/
theorem anchorOne_idem (i : Nat) (c : Chapter)
    (h : find_first TOCGenerator.anchorNames c.content ≠ none) :
    TOCGenerator.anchorOne i (TOCGenerator.anchorOne i c) = TOCGenerator.anchorOne i c := by
  obtain ⟨x, hx⟩ := Option.ne_none_iff_exists'.mp h
  have hflag : (setFirst TOCGenerator.anchorNames "id" ("chapter_" ++ toString i)
      c.content).2 = true := by
    rw [setFirst_flag]
    exact (find_first_ne_none_iff _ _).mp h
  have hidem := setFirst_idem TOCGenerator.anchorNames "id" ("chapter_" ++ toString i)
    c.content hflag
  have hfind2 : find_first TOCGenerator.anchorNames
      (setFirst TOCGenerator.anchorNames "id" ("chapter_" ++ toString i) c.content).1 ≠
        none := by
    rw [find_first_ne_none_iff, ← setFirst_flag TOCGenerator.anchorNames "id"
      ("chapter_" ++ toString i), hidem]
    exact hflag
  obtain ⟨y, hy⟩ := Option.ne_none_iff_exists'.mp hfind2
  simp only [TOCGenerator.anchorOne, hx, hy]
  simp only [hidem]

/-- Anchoring a chapter list twice equals anchoring it once, provided
every chapter contains a heading. -/
theorem add_anchors_aux_idem (chs : List Chapter) :
    ∀ i : Nat, (∀ c ∈ chs, find_first TOCGenerator.anchorNames c.content ≠ none) →
      TOCGenerator.add_anchors_aux i (TOCGenerator.add_anchors_aux i chs) =
        TOCGenerator.add_anchors_aux i chs := by
  induction chs with
  | nil => intro i _; rfl
  | cons c rest ih =>
    intro i h
    simp only [TOCGenerator.add_anchors_aux]
    rw [anchorOne_idem i c (h c (by simp)), ih (i + 1) (fun x hx => h x (by simp [hx]))]

/-! ## Claim theorems -/

/-- C10: format detection is invariant under leading/trailing whitespace
stripping: `detect_format s = detect_format (s.strip())` for every
string, because the detector strips its input before applying any
heuristic. -/
theorem claim_C10_strip_invariant (s : String) :
    ContentDetector.detect_format s = ContentDetector.detect_format (pyStrip s) := by
  by_cases h0 : s = ""
  · subst h0; rfl
  · by_cases h1 : pyStrip s = ""
    · unfold ContentDetector.detect_format
      rw [if_neg h0, h1]
      decide
    · unfold ContentDetector.detect_format
      rw [if_neg h0, if_neg h1, pyStrip_idem]

/-- C2: in the orchestrator's output, `toc_html` is present (not `None`)
exactly when the resulting chapter count exceeds one or the `force_toc`
option is set. -/
theorem claim_C2_toc_presence (html : String) (metaTitle : Option String)
    (fmt : String) (opts : POptions) :
    (process_core html metaTitle fmt opts).toc_html ≠ none ↔
      (1 < (process_core html metaTitle fmt opts).chapters.length ∨
        opts.force_toc = true) := by
  unfold process_core
  exact anchorAndToc_spec _ opts.force_toc

/-- C9: for every successfully assembled book, the spine is exactly
`nav`, then the TOC document when present, then `chapter_1 ..
chapter_n`, and the navigation listing is the same sequence without the
synthetic `nav` entry (so the two agree on every document). -/
theorem claim_C9_spine_toc (p : ProcessedContent) (b : EpubBookModel)
    (h : create_epub_async p = some b) :
    b.spine = "nav" :: ((if tocTruthy p.toc_html then ["toc"] else [])
        ++ chapterUids p.chapters.length) ∧
      b.toc = (if tocTruthy p.toc_html then ["toc"] else [])
        ++ chapterUids p.chapters.length ∧
      (∀ d, d ∈ b.spine.tail ↔ d ∈ b.toc) := by
  unfold create_epub_async at h
  by_cases he : p.chapters.isEmpty
  · rw [if_pos he] at h
    exact absurd h (by simp)
  · rw [if_neg he] at h
    have hb := Option.some.inj h
    subst hb
    exact ⟨rfl, rfl, fun d => Iff.rfl⟩

/-- C7 counterexample: on the scenario's document, the HTML returned by
`convert` for format `html` (conversion followed by styling) does
contain `<meta` and `<style` tags, because `_apply_styling` wraps the
fragment in a skeleton with a `<meta charset="UTF-8">` and an embedded
`<style>` block. -/
theorem claim_C7_counterexample :
    strContainsCI "<meta" (ContentConverter.convertHtmlFormat sampleHtmlDoc).1 = true ∧
      strContainsCI "<style" (ContentConverter.convertHtmlFormat sampleHtmlDoc).1 = true :=
  ⟨rfl, rfl⟩

/-- C7 amended: the pre-styling conversion output (`_convert_html`) on
the scenario's document contains no `<script`, `<style`, `<meta` or
`<link` tags (case-insensitively) and preserves `<p>Hello</p>` exactly;
the tags reappearing in `convert`'s final output come only from the
styling skeleton. -/
theorem claim_C7_amended :
    strContainsCI "<script" (ContentConverter.convert_html sampleHtmlDoc).1 = false ∧
      strContainsCI "<style" (ContentConverter.convert_html sampleHtmlDoc).1 = false ∧
      strContainsCI "<meta" (ContentConverter.convert_html sampleHtmlDoc).1 = false ∧
      strContainsCI "<link" (ContentConverter.convert_html sampleHtmlDoc).1 = false ∧
      strContains "<p>Hello</p>" (ContentConverter.convert_html sampleHtmlDoc).1 = true :=
  ⟨rfl, rfl, rfl, rfl, rfl⟩

/-- C8 counterexample: a chapter body that is already a complete
document (starts with `<html`) is not used as-is by the primary
assembly path: `_ensure_xhtml` re-wraps its extracted body contents. -/
theorem claim_C8_counterexample :
    ensure_xhtml "T" "<html><body><p>x</p></body></html>" ≠
      "<html><body><p>x</p></body></html>" := by
  decide

/-- C8 amended: in the cached assembly path, a chapter body is used
as-is exactly when it starts with `<!DOCTYPE` or `<html` after
stripping, and is wrapped in the XHTML skeleton otherwise; in the
primary path, every chapter body is unconditionally wrapped in the
minimal XHTML skeleton (with body contents extracted first from
complete documents, so documents are not nested). -/
theorem claim_C8_amended :
    (∀ t c : String,
        (pyStartsWith (pyStrip c) "<!DOCTYPE" || pyStartsWith (pyStrip c) "<html") = true →
        cached_chapter_content t c = c) ∧
      (∀ t c : String,
        (pyStartsWith (pyStrip c) "<!DOCTYPE" || pyStartsWith (pyStrip c) "<html") = false →
        cached_chapter_content t c = cachedWrap t c) ∧
      (∀ t c : String, ∃ inner, ensure_xhtml t c = xhtmlSkeleton t inner) := by
  refine ⟨?_, ?_, ?_⟩
  · intro t c h
    unfold cached_chapter_content
    rw [if_pos h]
  · intro t c h
    unfold cached_chapter_content
    rw [if_neg (by simp [h])]
  · intro t c
    exact ⟨_, rfl⟩

/-- Witness for the amended C8: a complete document is kept as-is by the
cached path, a fragment is wrapped, and the primary path produces a
skeleton-wrapped document. -/
theorem claim_C8_amended_witness :
    cached_chapter_content "T" "<html><p>a</p></html>" = "<html><p>a</p></html>" ∧
      cached_chapter_content "T" "<p>a</p>" = cachedWrap "T" "<p>a</p>" ∧
      (∃ inner, ensure_xhtml "T" "<p>a</p>" = xhtmlSkeleton "T" inner) :=
  ⟨claim_C8_amended.1 "T" "<html><p>a</p></html>" (by decide),
    claim_C8_amended.2.1 "T" "<p>a</p>" (by decide),
    claim_C8_amended.2.2 "T" "<p>a</p>"⟩

/-- C6 counterexample: for a chapter with no `h1`/`h2`/`h3` heading,
anchoring wraps the content in a `div` bearing the anchor id; a second
run finds no heading again and wraps a second, nested `div`, so the
function is not idempotent. -/
theorem claim_C6_counterexample :
    TOCGenerator.add_anchors_to_chapters (TOCGenerator.add_anchors_to_chapters
        [⟨"T", [Node.tag "p" [] [Node.text "x"]]⟩]) ≠
      TOCGenerator.add_anchors_to_chapters [⟨"T", [Node.tag "p" [] [Node.text "x"]]⟩] := by
  decide

/-- C6 amended: `add_anchors_to_chapters` is idempotent on chapter lists
in which every chapter's content contains an `h1`/`h2`/`h3` heading
(re-setting the already-assigned id is a no-op); for a heading-less
chapter it is not idempotent, since each run wraps the content in a
fresh `div` with the same `chapter_{i}` id. -/
theorem claim_C6_amended (chs : List Chapter)
    (h : ∀ c ∈ chs, find_first TOCGenerator.anchorNames c.content ≠ none) :
    TOCGenerator.add_anchors_to_chapters (TOCGenerator.add_anchors_to_chapters chs) =
      TOCGenerator.add_anchors_to_chapters chs :=
  add_anchors_aux_idem chs 1 h

/-- Witness for the amended C6 at a one-chapter list with an `h1`. -/
theorem claim_C6_amended_witness :
    TOCGenerator.add_anchors_to_chapters (TOCGenerator.add_anchors_to_chapters
        [⟨"T", [Node.tag "h1" [] [Node.text "x"]]⟩]) =
      TOCGenerator.add_anchors_to_chapters [⟨"T", [Node.tag "h1" [] [Node.text "x"]]⟩] :=
  claim_C6_amended [⟨"T", [Node.tag "h1" [] [Node.text "x"]]⟩] (by decide)

/-- C4 counterexample: `"http://example.com\n"` contains a newline and
starts with a URL, yet `detect_format` classifies it as `url`, because
the detector strips trailing whitespace before the single-line check. -/
theorem claim_C4_counterexample :
    ContentDetector.detect_format "http://example.com\n" = "url" ∧
      ("http://example.com\n").toList.contains '\n' = true := by
  exact ⟨by decide, by decide⟩

/-- C4 amended: after stripping, single-line text that parses as an
absolute http/https URL with non-empty host is classified `url`, and
text that still contains a newline after stripping is never classified
`url` (the un-stripped text may contain leading/trailing newlines). -/
theorem claim_C4_amended :
    (∀ (s : String) (scheme netloc : String),
        (pyStrip s).toList.contains '\n' = false →
        urlparseSN (pyStrip s) = some (scheme, netloc) →
        (scheme = "http" ∨ scheme = "https") →
        netloc ≠ "" →
        ContentDetector.detect_format s = "url") ∧
      (∀ s : String, (pyStrip s).toList.contains '\n' = true →
        ContentDetector.detect_format s ≠ "url") := by
  constructor
  · intro s scheme netloc hnl hparse hscheme hnet
    have hurl : ContentDetector.is_url (pyStrip s) = true := by
      unfold ContentDetector.is_url
      rw [if_neg (by rw [hnl]; simp), hparse]
      rcases hscheme with h | h <;> simp [h, hnet]
    have hs : s ≠ "" := by
      intro h
      rw [h] at hparse
      have : scheme = "" := by
        have := hparse
        simp only [show pyStrip "" = "" from rfl] at this
        have h2 : urlparseSN "" = some ("", "") := by decide
        rw [h2] at this
        exact (Prod.mk.injEq _ _ _ _).mp (Option.some.inj this) |>.1.symm
      rcases hscheme with h' | h' <;> simp_all
    unfold ContentDetector.detect_format
    rw [if_neg hs, if_pos hurl]
  · intro s hnl
    unfold ContentDetector.detect_format
    by_cases hs : s = ""
    · rw [if_pos hs]; decide
    · rw [if_neg hs]
      have hurl : ContentDetector.is_url (pyStrip s) = false := by
        unfold ContentDetector.is_url
        rw [if_pos hnl]
      rw [if_neg (by simp [hurl])]
      split
      · decide
      · split
        · decide
        · split
          · decide
          · decide

/-- Witness for the amended C4: positive at a padded URL, negative at an
embedded newline. -/
theorem claim_C4_amended_witness :
    ContentDetector.detect_format "  http://example.com  " = "url" ∧
      ContentDetector.detect_format "a\nb" ≠ "url" :=
  ⟨claim_C4_amended.1 "  http://example.com  " "http" "example.com"
      (by decide) (by decide) (Or.inl rfl) (by decide),
    claim_C4_amended.2 "a\nb" (by decide)⟩

/-- C1 counterexample: a document with more words than the threshold and
no block-level element makes `split_content` return the empty list (here
a splitter configured with `words_per_chapter = 2` on a three-word
`<span>`), refuting "never empty". -/
theorem claim_C1_counterexample :
    ChapterSplitter.split_content 2 "<span>one two three</span>" (some "T") = [] := by
  decide

/-- C1 amended: `split_content` returns the empty list exactly when the
document does not trigger heading-based splitting, its word count
exceeds `words_per_chapter`, and it contains no block-level element;
in every other case the result is non-empty (and the function is total,
so malformed input still yields a defined result). -/
theorem claim_C1_amended (wpc : Nat) (html : String) (title : Option String) :
    ChapterSplitter.split_content wpc html title = [] ↔
      (¬ 1 < (find_all ChapterSplitter.headingNames (parseHTML html)).length ∧
        wpc < (pySplitWS (getTextF (parseHTML html))).length ∧
        find_all ChapterSplitter.blockNames (parseHTML html) = []) := by
  unfold ChapterSplitter.split_content
  by_cases hh : 1 < (find_all ChapterSplitter.headingNames (parseHTML html)).length
  · rw [if_pos hh]
    constructor
    · intro he
      exfalso
      unfold ChapterSplitter.split_by_headings at he
      split at he <;> simp_all
    · rintro ⟨h1, -, -⟩
      exact absurd hh h1
  · rw [if_neg hh]
    unfold ChapterSplitter.split_by_word_count
    by_cases hw : (pySplitWS (getTextF (parseHTML html))).length ≤ wpc
    · rw [if_pos hw]
      constructor
      · intro he; exact absurd he (by simp)
      · rintro ⟨-, h2, -⟩; omega
    · rw [if_neg hw]
      push_neg at hw
      cases hel : find_all ChapterSplitter.blockNames (parseHTML html) with
      | nil =>
        simp only [List.foldl_nil]
        constructor
        · intro _; exact ⟨hh, hw, by trivial⟩
        · intro _; rfl
      | cons e es =>
        have hcur := wc_fold_cur wpc (e :: es) ⟨[], [], 0, 1⟩ (Or.inr (by simp))
        rw [if_pos hcur]
        constructor
        · intro he; exact absurd he (by simp)
        · rintro ⟨-, -, h3⟩
          exact absurd h3 (by simp)

/-- Witness for the amended C1 at a one-paragraph document below the
threshold: the result is non-empty. -/
theorem claim_C1_amended_witness :
    (ChapterSplitter.split_content 3000 "<p>hello world</p>" (some "T") = [] ↔
      (¬ 1 < (find_all ChapterSplitter.headingNames (parseHTML "<p>hello world</p>")).length ∧
        3000 < (pySplitWS (getTextF (parseHTML "<p>hello world</p>"))).length ∧
        find_all ChapterSplitter.blockNames (parseHTML "<p>hello world</p>") = [])) :=
  claim_C1_amended 3000 "<p>hello world</p>" (some "T")

/-- C3 counterexample: in `<h1>A</h1><h1>B</h1><p>x</p>` the first
heading has no sibling content before the next heading; the claim
predicts a titled chapter `"A"` with empty body, but the splitter drops
it and returns only the `"B"` chapter. -/
theorem claim_C3_counterexample :
    ChapterSplitter.split_content 3000 "<h1>A</h1><h1>B</h1><p>x</p>" none =
      [⟨"B", [Node.tag "p" [] [Node.text "x"]]⟩] := by
  decide

/-- C3 amended: a heading with no following sibling content yields no
chapter at all (empty-bodied chapters are dropped individually, so every
emitted chapter has non-empty content); the result is nevertheless never
empty, and when every heading gathers empty content the splitter falls
back to a single chapter wrapping the whole document titled
"Chapter 1". -/
theorem claim_C3_amended (soup : List Node)
    (hh : 1 < (find_all ChapterSplitter.headingNames soup).length) :
    (∀ c ∈ ChapterSplitter.split_by_headings soup
        (collectWithSibs ChapterSplitter.headingNames soup), c.content ≠ []) ∧
      ChapterSplitter.split_by_headings soup
        (collectWithSibs ChapterSplitter.headingNames soup) ≠ [] ∧
      ((∀ hp ∈ collectWithSibs ChapterSplitter.headingNames soup,
          ChapterSplitter.gatherSiblings
            ((collectWithSibs ChapterSplitter.headingNames soup).map Prod.fst) hp.2 = []) →
        ChapterSplitter.split_by_headings soup
          (collectWithSibs ChapterSplitter.headingNames soup) = [⟨"Chapter 1", soup⟩]) := by
  have hsoup : soup ≠ [] := by
    intro h
    rw [h] at hh
    simp [find_all, collectWithSibs] at hh
  refine ⟨?_, ?_, ?_⟩
  · intro c hc
    unfold ChapterSplitter.split_by_headings at hc
    split at hc
    · simp only [List.mem_singleton] at hc
      rw [hc]
      exact hsoup
    · unfold ChapterSplitter.headingChapters at hc
      rw [List.mem_filterMap] at hc
      obtain ⟨hp, -, hfp⟩ := hc
      by_cases hg : (ChapterSplitter.gatherSiblings
          ((collectWithSibs ChapterSplitter.headingNames soup).map Prod.fst) hp.2).isEmpty
      · rw [if_pos hg] at hfp
        exact absurd hfp (by simp)
      · rw [if_neg hg] at hfp
        have := Option.some.inj hfp
        rw [← this]
        exact joinNodes_ne_nil (by simpa using hg)
  · unfold ChapterSplitter.split_by_headings
    split <;> simp_all
  · intro hall
    unfold ChapterSplitter.split_by_headings
    have hnil : ChapterSplitter.headingChapters
        ((collectWithSibs ChapterSplitter.headingNames soup).map Prod.fst)
        (collectWithSibs ChapterSplitter.headingNames soup) = [] := by
      apply filterMap_eq_nil_of
      intro hp hmem
      rw [hall hp hmem]
      rfl
    rw [hnil]
    rfl

/-- Witness for the amended C3 at `<h1>A</h1><h1>B</h1><p>x</p>`. -/
theorem claim_C3_amended_witness :
    (∀ c ∈ ChapterSplitter.split_by_headings (parseHTML "<h1>A</h1><h1>B</h1><p>x</p>")
        (collectWithSibs ChapterSplitter.headingNames
          (parseHTML "<h1>A</h1><h1>B</h1><p>x</p>")), c.content ≠ []) ∧
      ChapterSplitter.split_by_headings (parseHTML "<h1>A</h1><h1>B</h1><p>x</p>")
        (collectWithSibs ChapterSplitter.headingNames
          (parseHTML "<h1>A</h1><h1>B</h1><p>x</p>")) ≠ [] ∧
      ((∀ hp ∈ collectWithSibs ChapterSplitter.headingNames
            (parseHTML "<h1>A</h1><h1>B</h1><p>x</p>"),
          ChapterSplitter.gatherSiblings
            ((collectWithSibs ChapterSplitter.headingNames
              (parseHTML "<h1>A</h1><h1>B</h1><p>x</p>")).map Prod.fst) hp.2 = []) →
        ChapterSplitter.split_by_headings (parseHTML "<h1>A</h1><h1>B</h1><p>x</p>")
          (collectWithSibs ChapterSplitter.headingNames
            (parseHTML "<h1>A</h1><h1>B</h1><p>x</p>")) =
          [⟨"Chapter 1", parseHTML "<h1>A</h1><h1>B</h1><p>x</p>"⟩]) :=
  claim_C3_amended (parseHTML "<h1>A</h1><h1>B</h1><p>x</p>") (by decide)

/-- C5: a document of exactly `words_per_chapter` words yields exactly
one chapter from the word-count splitter; a document of
`words_per_chapter + 1` words spread across at least two block-level
elements (so that the per-element word counts sum past the threshold)
yields at least two chapters. -/
theorem claim_C5_word_count_boundary :
    (∀ (wpc : Nat) (soup : List Node) (title : Option String),
        (pySplitWS (getTextF soup)).length = wpc →
        (ChapterSplitter.split_by_word_count wpc soup title).length = 1) ∧
      (∀ (wpc : Nat) (soup : List Node) (title : Option String),
        (pySplitWS (getTextF soup)).length = wpc + 1 →
        2 ≤ (find_all ChapterSplitter.blockNames soup).length →
        wpc < ((find_all ChapterSplitter.blockNames soup).map
            (fun el => (pySplitWS (Node.getText el)).length)).sum →
        2 ≤ (ChapterSplitter.split_by_word_count wpc soup title).length) := by
  constructor
  · intro wpc soup title hw
    unfold ChapterSplitter.split_by_word_count
    rw [if_pos (le_of_eq hw)]
    rfl
  · intro wpc soup title hw hel hsum
    unfold ChapterSplitter.split_by_word_count
    rw [if_neg (by omega)]
    cases hels : find_all ChapterSplitter.blockNames soup with
    | nil => rw [hels] at hel; simp at hel
    | cons e es =>
      cases es with
      | nil => rw [hels] at hel; simp at hel
      | cons e2 es2 =>
        have hcur := wc_fold_cur wpc (e :: e2 :: es2) ⟨[], [], 0, 1⟩ (Or.inr (by simp))
        rw [if_pos hcur]
        have hstep1 : ChapterSplitter.wcStep wpc ⟨[], [], 0, 1⟩ e =
            ⟨[], [e], (pySplitWS (Node.getText e)).length, 1⟩ := by
          simp only [ChapterSplitter.wcStep]
          rw [if_neg (by simp)]
          simp
        have hch : ((e2 :: es2).foldl (ChapterSplitter.wcStep wpc)
            (ChapterSplitter.wcStep wpc ⟨[], [], 0, 1⟩ e)).chapters ≠ [] := by
          rw [hstep1]
          apply wc_fold_chapters_ne
          · simp
          · simp
          · rw [hels] at hsum
            simp only [List.map_cons, List.sum_cons] at hsum ⊢
            omega
        rw [List.foldl_cons]
        rcases List.exists_cons_of_ne_nil hch with ⟨c0, cs, hcs⟩
        rw [hcs]
        simp

/-- Witness for C5: one chapter for a two-word document at threshold 2,
two chapters for a two-word, two-paragraph document at threshold 1. -/
theorem claim_C5_word_count_boundary_witness :
    (ChapterSplitter.split_by_word_count 2 (parseHTML "<p>a b</p>") none).length = 1 ∧
      2 ≤ (ChapterSplitter.split_by_word_count 1 (parseHTML "<p>a </p><p>b</p>") none).length :=
  ⟨claim_C5_word_count_boundary.1 2 (parseHTML "<p>a b</p>") none (by rfl),
    claim_C5_word_count_boundary.2 1 (parseHTML "<p>a </p><p>b</p>") none (by rfl)
      (by decide) (by decide)⟩

/-- Witness for C9 at a concrete one-chapter, no-TOC book. -/
theorem claim_C9_spine_toc_witness :
    (⟨["nav", "chapter_1"], ["chapter_1"]⟩ : EpubBookModel).spine
        = "nav" :: ((if tocTruthy (ProcessedContent.mk [⟨"T", []⟩] "" "plain" none).toc_html
            then ["toc"] else [])
          ++ chapterUids (ProcessedContent.mk [⟨"T", []⟩] "" "plain" none).chapters.length) ∧
      (⟨["nav", "chapter_1"], ["chapter_1"]⟩ : EpubBookModel).toc
        = (if tocTruthy (ProcessedContent.mk [⟨"T", []⟩] "" "plain" none).toc_html
            then ["toc"] else [])
          ++ chapterUids (ProcessedContent.mk [⟨"T", []⟩] "" "plain" none).chapters.length ∧
      (∀ d, d ∈ (⟨["nav", "chapter_1"], ["chapter_1"]⟩ : EpubBookModel).spine.tail ↔
        d ∈ (⟨["nav", "chapter_1"], ["chapter_1"]⟩ : EpubBookModel).toc) :=
  claim_C9_spine_toc ⟨[⟨"T", []⟩], "", "plain", none⟩ ⟨["nav", "chapter_1"], ["chapter_1"]⟩ rfl

end ClipToEpub
